import Mathlib

/- Shallow embedding of the data-ingestion layer of `src/data_sources.py`
   (crypto research dashboard).  Python floats are modelled as exact
   rationals extended with NaN and the two signed infinities; Python
   exceptions are modelled with `Except PyErr`.  All rational values are
   constructed through `mkRat` / `Rat.divInt` / `Rat.neg` so that every
   definition evaluates by kernel reduction. -/

/-- Python exception kinds raised by the data layer.  `fetchErr` is the
`DataFetchError` class of `data_sources.py`; the others are Python builtins. -/
inductive PyErr where
  | fetchErr (msg : String)
  | keyErr (key : String)
  | valueErr (msg : String)
  | typeErr (msg : String)
  | indexErr
  | attrErr (msg : String)
  deriving DecidableEq, Repr

/-- True exactly on the `DataFetchError` error kind. -/
def PyErr.isFetch : PyErr → Bool
  | .fetchErr _ => true
  | _ => false

/-- A Python `float` value: an exact rational, NaN, or a signed infinity
(binary64 rounding is idealised away; the dashboard only manipulates
decimal literals and ratios of them). -/
inductive PyFloat where
  | nan
  | pinf
  | ninf
  | val (q : ℚ)
  deriving DecidableEq, Repr

/-- Rational multiplication written with `mkRat` so that it evaluates by
kernel reduction (the library `Rat.mul` is irreducible). -/
def ratMul (a b : ℚ) : ℚ := mkRat (a.num * b.num) (a.den * b.den)

/-- Rational division written with `Rat.divInt` so that it evaluates by
kernel reduction (the library `Rat.div` is irreducible). -/
def ratDiv (a b : ℚ) : ℚ := Rat.divInt (a.num * (b.den : Int)) ((a.den : Int) * b.num)

/-- Negation of a Python float. -/
def pyNeg : PyFloat → PyFloat
  | .nan => .nan
  | .pinf => .ninf
  | .ninf => .pinf
  | .val q => .val (Rat.neg q)

/-- Multiplication of a Python float by a positive finite rational constant
(used for the 1e6/1e9 magnitude suffixes, the gold-supply conversion, and
the 1e-12 trillion scaling; the IEEE behaviour on NaN/inf for a positive
finite factor is sign preservation). -/
def pyMulQ (c : ℚ) : PyFloat → PyFloat
  | .nan => .nan
  | .pinf => .pinf
  | .ninf => .ninf
  | .val q => .val (ratMul c q)

/-- Whitespace as recognised by Python `str.strip()` (ASCII subset). -/
def isPySpace (c : Char) : Bool :=
  c = ' ' || c = '\t' || c = '\n' || c = '\r' || c = '\x0b' || c = '\x0c'

/-- Drop trailing characters satisfying `p`. -/
def dropTrailing (p : Char → Bool) (s : List Char) : List Char :=
  (s.reverse.dropWhile p).reverse

/-- Python `str.strip(chars)`: drop leading and trailing characters
satisfying `p`. -/
def stripBoth (p : Char → Bool) (s : List Char) : List Char :=
  dropTrailing p (s.dropWhile p)

/-- Python `str.strip()` with no argument. -/
def pyStrip (s : List Char) : List Char := stripBoth isPySpace s

/-- Python `str.replace(old, "")`: delete leftmost non-overlapping
occurrences of `pat`, scanning left to right and continuing after each
deleted occurrence.  Fuel-indexed (fuel = string length) so that it
evaluates by kernel reduction. -/
def removeAllAux (pat : List Char) : Nat → List Char → List Char
  | _, [] => []
  | 0, s => s
  | fuel + 1, c :: rest =>
    if pat.isPrefixOf (c :: rest) && !pat.isEmpty then
      removeAllAux pat fuel (rest.drop (pat.length - 1))
    else
      c :: removeAllAux pat fuel rest

/-- Python `str.replace(old, "")`. -/
def removeAll (pat s : List Char) : List Char := removeAllAux pat s.length s

/-- Python `str.replace(old, new)` (non-overlapping, left to right, the
replacement text is not rescanned).  Fuel-indexed like `removeAllAux`. -/
def replaceAllAux (pat repl : List Char) : Nat → List Char → List Char
  | _, [] => []
  | 0, s => s
  | fuel + 1, c :: rest =>
    if pat.isPrefixOf (c :: rest) && !pat.isEmpty then
      repl ++ replaceAllAux pat repl fuel (rest.drop (pat.length - 1))
    else
      c :: replaceAllAux pat repl fuel rest

/-- Python `str.replace(old, new)`. -/
def replaceAll (pat repl s : List Char) : List Char := replaceAllAux pat repl s.length s

/-- Index of the first occurrence of `pat` in the scanned suffix. -/
def findSubAux (pat : List Char) : List Char → Option Nat
  | [] => if pat.isEmpty then some 0 else none
  | c :: rest =>
    if pat.isPrefixOf (c :: rest) then some 0
    else (findSubAux pat rest).map (· + 1)

/-- Python `str.find(sub)` (with `none` for `-1`). -/
def findSub (pat s : List Char) : Option Nat := findSubAux pat s

/-- Python `str.find(sub, start)` (with `none` for `-1`). -/
def findSubFrom (pat s : List Char) (start : Nat) : Option Nat :=
  (findSubAux pat (s.drop start)).map (· + start)

/-- Python slicing `s[a:b]` for `0 ≤ a, b` (an empty list when `b ≤ a`). -/
def sliceStr (s : List Char) (a b : Nat) : List Char := (s.drop a).take (b - a)

/-- Python `str.split(sep)` for a single-character separator (keeps empty
pieces, like Python). -/
def splitOnCharAux (sep : Char) : List Char → List Char → List (List Char)
  | acc, [] => [acc.reverse]
  | acc, c :: rest =>
    if c = sep then acc.reverse :: splitOnCharAux sep [] rest
    else splitOnCharAux sep (c :: acc) rest

/-- Python `str.split(sep)` for a single-character separator. -/
def splitOnChar (sep : Char) (s : List Char) : List (List Char) := splitOnCharAux sep [] s

/-- Line-break characters recognised by Python `str.splitlines()`. -/
def isLineEnd (c : Char) : Bool :=
  c = '\n' || c = '\r' || c = '\x0b' || c = '\x0c' ||
    c = '\x1c' || c = '\x1d' || c = '\x1e' || c = '\x85' || c = '\u2028' || c = '\u2029'

/-- Python `str.splitlines()` (terminators are dropped; `\r\n` counts as a
single break; a trailing fragment is kept only when non-empty). -/
def splitlinesAux : List Char → List Char → List (List Char)
  | acc, [] => if acc.isEmpty then [] else [acc.reverse]
  | acc, '\r' :: '\n' :: rest => acc.reverse :: splitlinesAux [] rest
  | acc, c :: rest =>
    if isLineEnd c then acc.reverse :: splitlinesAux [] rest
    else splitlinesAux (c :: acc) rest

/-- Python `str.splitlines()`. -/
def splitlines (s : List Char) : List (List Char) := splitlinesAux [] s

/-- Numeric value of a decimal digit character. -/
def digitVal (c : Char) : Nat := c.toNat - '0'.toNat

/-- Python `str.isdigit()` (ASCII digits). -/
def allDigits (s : List Char) : Bool := !s.isEmpty && s.all (·.isDigit)

/-- Value of a digit string, most significant first. -/
def digitsToNat (s : List Char) : Nat := s.foldl (fun n c => n * 10 + digitVal c) 0

/-- Lower-case an ASCII string. -/
def lowerAll (s : List Char) : List Char := s.map Char.toLower

/-- Python `float(string)` on text, as an exact rational: optional
surrounding whitespace, optional sign, decimal digits with an optional
fractional part and exponent, and the words inf/infinity/nan
(case-insensitive).  Digit-group underscores and overflow-to-infinity are
not modelled. -/
def pyFloatParse (s0 : List Char) : Option PyFloat :=
  let s := pyStrip s0
  let signBody : Bool × List Char :=
    match s with
    | '+' :: t => (false, t)
    | '-' :: t => (true, t)
    | _ => (false, s)
  let neg := signBody.1
  let body := signBody.2
  let lb := lowerAll body
  if lb = "inf".toList || lb = "infinity".toList then
    some (if neg then .ninf else .pinf)
  else if lb = "nan".toList then some .nan
  else
    let ipSplit := body.span (·.isDigit)
    let ip := ipSplit.1
    let dotSplit : List Char × List Char :=
      match ipSplit.2 with
      | '.' :: t => t.span (·.isDigit)
      | _ => ([], ipSplit.2)
    let fp := dotSplit.1
    if ip.isEmpty && fp.isEmpty then none
    else
      let mantNum : Int := Int.ofNat (digitsToNat (ip ++ fp))
      let mantDen : Nat := 10 ^ fp.length
      match dotSplit.2 with
      | [] => some (.val (mkRat (if neg then -mantNum else mantNum) mantDen))
      | e :: t =>
        if e == 'e' || e == 'E' then
          let expSplit : Bool × List Char :=
            match t with
            | '+' :: u => (false, u)
            | '-' :: u => (true, u)
            | _ => (false, t)
          if allDigits expSplit.2 then
            let ev := digitsToNat expSplit.2
            let num := if expSplit.1 then mantNum else mantNum * Int.ofNat (10 ^ ev)
            let den := if expSplit.1 then mantDen * 10 ^ ev else mantDen
            some (.val (mkRat (if neg then -num else num) den))
          else none
        else none

/-- `_to_number` from `data_sources.py`: tolerant free-form numeric text
normalisation.  The result is `Except` because the source expression
`cleaned[-1]` raises `IndexError` whenever the cleaned text is empty. -/
def to_number (value : String) : Except PyErr PyFloat :=
  let v := pyStrip value.toList
  if v.isEmpty || v = ['-'] then .ok .nan
  else
    let negative := v.head? == some '(' && v.getLast? == some ')'
    let c0 := stripBoth (fun c => c = '(' || c = ')') v
    let c1 := removeAll [','] c0
    let c2 := removeAll ['$'] c1
    let c3 := removeAll ['+'] c2
    let c4 := removeAll "SOL".toList c3
    let c5 := removeAll "ETH".toList c4
    let c6 := removeAll "BTC".toList c5
    let cleaned := removeAll ['%'] c6
    match cleaned.getLast? with
    | none => .error .indexErr
    | some last =>
      let lastLower := last.toLower
      let hasSuffix := lastLower == 'm' || lastLower == 'b'
      let cleanedNum := if hasSuffix then cleaned.dropLast else cleaned
      match pyFloatParse cleanedNum with
      | none => .ok .nan
      | some n =>
        let scaled :=
          if hasSuffix then
            pyMulQ (if lastLower == 'm' then mkRat 1000000 1 else mkRat 1000000000 1) n
          else n
        .ok (if negative then pyNeg scaled else scaled)

example : to_number "()" = .error .indexErr := by rfl
example : to_number "-" = .ok .nan := by rfl
example : to_number "1.2b" = .ok (.val (mkRat 1200000000 1)) := by rfl
example : to_number "1,000 BTC" = .ok (.val (mkRat 1000 1)) := by rfl
example : to_number "5)" = .ok (.val (mkRat 5 1)) := by rfl

/-- A calendar date (the `.date()` part of parsed timestamps). -/
structure Date where
  year : Nat
  month : Nat
  day : Nat
  deriving DecidableEq, Repr

/-- Gregorian leap year, as validated by Python `datetime`. -/
def isLeap (y : Nat) : Bool := (y % 4 == 0 && y % 100 != 0) || y % 400 == 0

/-- Days in a month, as validated by Python `datetime`. -/
def daysInMonth (y m : Nat) : Nat :=
  if m = 2 then (if isLeap y then 29 else 28)
  else if m = 4 || m = 6 || m = 9 || m = 11 then 30
  else 31

/-- Range checks done by the Python `datetime` constructor. -/
def Date.valid (d : Date) : Bool :=
  1 ≤ d.year && d.year ≤ 9999 && 1 ≤ d.month && d.month ≤ 12 &&
    1 ≤ d.day && d.day ≤ daysInMonth d.year d.month

/-- Chronological sort key of a date (months and days are two digits). -/
def Date.key (d : Date) : Nat := d.year * 10000 + d.month * 100 + d.day

/-- `strptime` with format `%Y-%m-%d` (4-digit year, 1-2 digit month/day,
calendar-validated), as used by `pd.to_datetime(..., format="%Y-%m-%d",
errors="coerce")`; `none` models coercion to NaT. -/
def ymdParse (s : List Char) : Option Date :=
  match splitOnChar '-' s with
  | [ys, ms, ds] =>
    if ys.length = 4 && allDigits ys && ms.length ≤ 2 && allDigits ms &&
        ds.length ≤ 2 && allDigits ds then
      let d : Date := ⟨digitsToNat ys, digitsToNat ms, digitsToNat ds⟩
      if d.valid then some d else none
    else none
  | _ => none

/-- English month abbreviations for `%b` (matched case-insensitively). -/
def monthAbbrevs : List (List Char) :=
  ["jan".toList, "feb".toList, "mar".toList, "apr".toList, "may".toList, "jun".toList,
    "jul".toList, "aug".toList, "sep".toList, "oct".toList, "nov".toList, "dec".toList]

/-- Month number of a `%b` month abbreviation. -/
def monthOfAbbrev (s : List Char) : Option Nat :=
  (monthAbbrevs.findIdx? (· == lowerAll s)).map (· + 1)

/-- `strptime` with format `%d %b %Y` (1-2 digit day, abbreviated month
name, 4-digit year, calendar-validated), as used by
`pd.to_datetime(..., format="%d %b %Y", errors="coerce")`. -/
def dmyParse (s : List Char) : Option Date :=
  match splitOnChar ' ' s with
  | [ds, ms, ys] =>
    if ds.length ≤ 2 && allDigits ds && ys.length = 4 && allDigits ys then
      match monthOfAbbrev ms with
      | some m =>
        let d : Date := ⟨digitsToNat ys, m, digitsToNat ds⟩
        if d.valid then some d else none
      | none => none
    else none
  | _ => none

/-- Read two decimal digits. -/
def parseTwo (s : List Char) : Option (Nat × List Char) :=
  match s with
  | a :: b :: rest =>
    if a.isDigit && b.isDigit then some (digitVal a * 10 + digitVal b, rest) else none
  | _ => none

/-- Optional `:SS[.ffffff]` seconds part of an ISO-8601 time. -/
def isoSecFrac (s : List Char) : Option (Nat × List Char) :=
  match s with
  | ':' :: r =>
    match parseTwo r with
    | some (ss, r2) =>
      match r2 with
      | '.' :: r3 =>
        let fr := r3.span (·.isDigit)
        if 1 ≤ fr.1.length && fr.1.length ≤ 6 then some (ss, fr.2) else none
      | _ => some (ss, r2)
    | none => none
  | _ => some (0, s)

/-- Optional `±HH:MM` UTC-offset suffix of an ISO-8601 time. -/
def isoOffsetOk (s : List Char) : Bool :=
  match s with
  | [] => true
  | sgn :: rest =>
    (sgn == '+' || sgn == '-') &&
      match parseTwo rest with
      | some (oh, r1) =>
        (match r1 with
          | ':' :: r2 =>
            match parseTwo r2 with
            | some (om, r3) => oh ≤ 23 && om ≤ 59 && r3.isEmpty
            | none => false
          | _ => false)
      | none => false

/-- `HH:MM[:SS[.ffffff]][±HH:MM]` time-of-day part of an ISO-8601 string. -/
def isoTimeOk (t : List Char) : Bool :=
  match parseTwo t with
  | some (hh, r1) =>
    (match r1 with
      | ':' :: r2 =>
        match parseTwo r2 with
        | some (mm, r3) =>
          (match isoSecFrac r3 with
            | some (ss, r4) => hh ≤ 23 && mm ≤ 59 && ss ≤ 59 && isoOffsetOk r4
            | none => false)
        | none => false
      | _ => false)
  | none => false

/-- `datetime.fromisoformat`: `YYYY-MM-DD` optionally followed by a single
separator character and a time of day with optional fractional seconds and
UTC offset.  Only the date part is returned, matching the `.date()`
projection taken by the caller. -/
def isoParse (s : List Char) : Option Date :=
  match s with
  | y1 :: y2 :: y3 :: y4 :: '-' :: m1 :: m2 :: '-' :: d1 :: d2 :: rest =>
    if [y1, y2, y3, y4, m1, m2, d1, d2].all (·.isDigit) then
      let dte : Date := ⟨digitsToNat [y1, y2, y3, y4],
        digitVal m1 * 10 + digitVal m2, digitVal d1 * 10 + digitVal d2⟩
      if dte.valid then
        match rest with
        | [] => some dte
        | _sep :: t => if isoTimeOk t then some dte else none
      else none
    else none
  | _ => none

/-- A decoded JSON value (the output of `response.json()`). -/
inductive JsonVal where
  | jnull
  | jbool (b : Bool)
  | jnum (q : ℚ)
  | jstr (s : String)
  | jarr (xs : List JsonVal)
  | jobj (fields : List (String × JsonVal))

/-- Lookup in a JSON object (Python `dict` subscript / `.get`). -/
def jlookup (k : String) (fs : List (String × JsonVal)) : Option JsonVal :=
  (fs.find? (fun p => p.1 == k)).map (·.2)

/-- Python `float(x)` on a decoded JSON value: numbers pass through,
strings are parsed (`ValueError` on failure), booleans become 0/1, and
null/arrays/objects raise `TypeError`. -/
def pyFloatOfJson : JsonVal → Except PyErr PyFloat
  | .jnum q => .ok (.val q)
  | .jstr s =>
    match pyFloatParse s.toList with
    | some x => .ok x
    | none => .error (.valueErr s)
  | .jbool b => .ok (.val (if b then mkRat 1 1 else mkRat 0 1))
  | .jnull => .error (.typeErr "float() argument must not be None")
  | .jarr _ => .error (.typeErr "float() argument must not be a list")
  | .jobj _ => .error (.typeErr "float() argument must not be a dict")

/-- Python `int(s)` on text: optional surrounding whitespace, optional
sign, decimal digits. -/
def pyIntParse (s0 : List Char) : Option Int :=
  let s := pyStrip s0
  let signBody : Bool × List Char :=
    match s with
    | '+' :: t => (false, t)
    | '-' :: t => (true, t)
    | _ => (false, s)
  if allDigits signBody.2 then
    some (if signBody.1 then -Int.ofNat (digitsToNat signBody.2)
      else Int.ofNat (digitsToNat signBody.2))
  else none

/-- Truncation toward zero, Python `int(float)`. -/
def ratTrunc (q : ℚ) : Int :=
  if q.num < 0 then -Int.ofNat (q.num.natAbs / q.den) else Int.ofNat (q.num.natAbs / q.den)

/-- Python `int(x)` on a decoded JSON value: strings are parsed
(`ValueError` on failure), numbers truncate toward zero, booleans become
0/1, anything else raises `TypeError`. -/
def pyIntOfJson : JsonVal → Except PyErr Int
  | .jnum q => .ok (ratTrunc q)
  | .jstr s =>
    match pyIntParse s.toList with
    | some n => .ok n
    | none => .error (.valueErr s)
  | .jbool b => .ok (if b then 1 else 0)
  | .jnull => .error (.typeErr "int() argument must not be None")
  | .jarr _ => .error (.typeErr "int() argument must not be a list")
  | .jobj _ => .error (.typeErr "int() argument must not be a dict")

/-- Python float truthiness: only `0.0` is falsy (NaN and infinities are
truthy). -/
def pyIsZero : PyFloat → Bool
  | .val q => q.num == 0
  | _ => false

/-- Division of Python floats with IEEE NaN/infinity semantics.  The
`val/val` case with a zero divisor would raise `ZeroDivisionError` in
Python; both call sites guard it with a truthiness check, so that case is
unreachable and is given the junk value of `ratDiv` (zero). -/
def pyDiv : PyFloat → PyFloat → PyFloat
  | .nan, _ => .nan
  | _, .nan => .nan
  | .pinf, .pinf => .nan
  | .pinf, .ninf => .nan
  | .ninf, .pinf => .nan
  | .ninf, .ninf => .nan
  | .pinf, .val y => if y.num < 0 then .ninf else .pinf
  | .ninf, .val y => if y.num < 0 then .pinf else .ninf
  | .val _, .pinf => .val (mkRat 0 1)
  | .val _, .ninf => .val (mkRat 0 1)
  | .val x, .val y => .val (ratDiv x y)

/-- The `MarketCapSnapshot` dataclass of `data_sources.py`. -/
structure MarketCapSnapshot where
  btc_price : PyFloat
  btc_market_cap : PyFloat
  gold_price : PyFloat
  gold_market_cap : PyFloat
  deriving DecidableEq, Repr

/-- The `btc_vs_gold_ratio` property: NaN when the gold market cap is
falsy (zero), otherwise the ratio. -/
def MarketCapSnapshot.btc_vs_gold_ratio (s : MarketCapSnapshot) : PyFloat :=
  if pyIsZero s.gold_market_cap then .nan
  else pyDiv s.btc_market_cap s.gold_market_cap

/-- The `gold_vs_btc_upside` property: NaN when the BTC market cap is
falsy (zero), otherwise the ratio. -/
def MarketCapSnapshot.gold_vs_btc_upside (s : MarketCapSnapshot) : PyFloat :=
  if pyIsZero s.btc_market_cap then .nan
  else pyDiv s.gold_market_cap s.btc_market_cap

/-- `TOTAL_ABOVE_GROUND_GOLD_TONNES = 205_000` from `data_sources.py`. -/
def TOTAL_ABOVE_GROUND_GOLD_TONNES : ℚ := mkRat 205000 1

/-- `TONNES_TO_TROY_OZ = 32_150.7466` from `data_sources.py`. -/
def TONNES_TO_TROY_OZ : ℚ := mkRat 321507466 10000

/-- The pure assembly step of `fetch_market_caps`: given the BTC price,
BTC market cap and gold price decoded from the two JSON feeds, build the
snapshot with `gold_market_cap = gold_price * (205000 * 32150.7466)`. -/
def fetch_market_caps_core (btcPrice btcCap goldPrice : PyFloat) : MarketCapSnapshot :=
  let total_oz : ℚ := ratMul TOTAL_ABOVE_GROUND_GOLD_TONNES TONNES_TO_TROY_OZ
  { btc_price := btcPrice
    btc_market_cap := btcCap
    gold_price := goldPrice
    gold_market_cap := pyMulQ total_oz goldPrice }

/-- Descending comparison on Python floats with NaN sorted last, the key
order of `DataFrame.sort_values(col, ascending=False)`. -/
def descLE : PyFloat → PyFloat → Bool
  | .nan, .nan => true
  | .nan, _ => false
  | _, .nan => true
  | .pinf, _ => true
  | .ninf, .ninf => true
  | .ninf, .pinf => false
  | .ninf, .val _ => false
  | .val _, .pinf => false
  | .val _, .ninf => true
  | .val x, .val y => !Rat.blt x y

/-- The strict variant of `descLE` claimed by the specification: numeric
values strictly decrease, and NaN rows come after every numeric row. -/
def descLT : PyFloat → PyFloat → Bool
  | .nan, .nan => true
  | .nan, _ => false
  | _, .nan => true
  | .pinf, .pinf => false
  | .pinf, _ => true
  | .ninf, _ => false
  | .val _, .pinf => false
  | .val _, .ninf => true
  | .val x, .val y => Rat.blt y x

/-- `DataFrame.sort_values` on a date column, modelled as a comparison
sort; the claims only use that the result is sorted for the key order. -/
def sortByDateKey {α : Type} (key : α → Date) (rows : List α) : List α :=
  List.insertionSort (fun a b => (key a).key ≤ (key b).key) rows

/-- `DataFrame.sort_values(ascending=False, na_position="last")` on a
float column, modelled as a comparison sort. -/
def sortByFloatDesc {α : Type} (key : α → PyFloat) (rows : List α) : List α :=
  List.insertionSort (fun a b => descLE (key a) (key b) = true) rows

/-- `DataFrame.sort_values` on an integer (year) column. -/
def sortByIntKey {α : Type} (key : α → Int) (rows : List α) : List α :=
  List.insertionSort (fun a b => key a ≤ key b) rows

/-- One row of the global-M2 table: year, raw value, value in trillions. -/
structure M2Row where
  year : Int
  value : PyFloat
  value_trillion : PyFloat
  deriving DecidableEq, Repr

/-- The per-record body of the `fetch_global_m2` loop: records that are
missing `value`/`date` (or have a JSON null there) are skipped, a value
that fails `float()` is skipped (`TypeError`/`ValueError` are caught), and
`int(year)` failures escape uncaught. -/
def m2EntryRow (entry : JsonVal) : Except PyErr (Option (Int × PyFloat)) :=
  match entry with
  | .jobj fs =>
    let value : Option JsonVal :=
      match jlookup "value" fs with
      | some .jnull => none
      | v => v
    let year : Option JsonVal :=
      match jlookup "date" fs with
      | some .jnull => none
      | v => v
    match value, year with
    | some v, some y =>
      (match pyFloatOfJson v with
        | .ok numeric =>
          (match pyIntOfJson y with
            | .ok yi => .ok (some (yi, numeric))
            | .error e => .error e)
        | .error _ => .ok none)
    | _, _ => .ok none
  | _ => .error (.attrErr "get")

/-- The full `for entry in records` loop of `fetch_global_m2`. -/
def m2Rows : List JsonVal → Except PyErr (List (Int × PyFloat))
  | [] => .ok []
  | e :: es =>
    match m2EntryRow e with
    | .error err => .error err
    | .ok none => m2Rows es
    | .ok (some r) =>
      match m2Rows es with
      | .error err => .error err
      | .ok rest => .ok (r :: rest)

/-- `fetch_global_m2` after JSON decoding: `records = payload[1]`
(`IndexError` when the payload is too short), the tolerant per-record
loop, the empty-result check, the year sort, and the `value_trillion`
column (`value / 1e12`).  A non-array `records`, which Python would
iterate generically, is modelled as a `TypeError`. -/
def fetch_global_m2_core (payload : List JsonVal) : Except PyErr (List M2Row) :=
  match payload.get? 1 with
  | none => .error .indexErr
  | some records =>
    match records with
    | .jarr entries =>
      (match m2Rows entries with
        | .error e => .error e
        | .ok rows =>
          if rows.isEmpty then
            .error (.fetchErr "World Bank M2 dataset returned no usable data")
          else
            .ok ((sortByIntKey (fun r => r.1) rows).map
              (fun r => ⟨r.1, r.2, pyMulQ (mkRat 1 1000000000000) r.2⟩)))
    | _ => .error (.typeErr "records is not a JSON array")

/-- The replacement text `+00:00` substituted for a trailing `Z`. -/
def zOffset : List Char := "+00:00".toList

/-- One row of the MVRV table. -/
structure MvrvRow where
  date : Date
  cap_market_usd : PyFloat
  cap_realized_usd : PyFloat
  mvrv_ratio : PyFloat
  deriving DecidableEq, Repr

/-- Message of the wrapped timestamp failure in `fetch_mvrv_timeseries`. -/
def mvrvTimestampMsg : String := "Invalid timestamp in CoinMetrics payload"

/-- `float(row[k])` for a required CoinMetrics metric: a missing key
raises `KeyError` and a non-numeric value raises `ValueError`/`TypeError`,
none of which are caught by the source. -/
def mvrvField (fs : List (String × JsonVal)) (k : String) : Except PyErr PyFloat :=
  match jlookup k fs with
  | none => .error (.keyErr k)
  | some v => pyFloatOfJson v

/-- The per-row body of the `fetch_mvrv_timeseries` loop.  The
`try`/`except` around the timestamp catches exactly `KeyError` and
`ValueError` and re-raises them as `DataFetchError`; a non-string `time`
raises an uncaught `AttributeError` from `.replace`, and the three metric
conversions are entirely outside the `try`. -/
def mvrvRowParse (row : JsonVal) : Except PyErr MvrvRow :=
  match row with
  | .jobj fs =>
    (match jlookup "time" fs with
      | none => .error (.fetchErr mvrvTimestampMsg)
      | some (.jstr s) =>
        (match isoParse (replaceAll ['Z'] zOffset s.toList) with
          | none => .error (.fetchErr mvrvTimestampMsg)
          | some d =>
            (match mvrvField fs "CapMrktCurUSD" with
              | .error e => .error e
              | .ok a =>
                (match mvrvField fs "CapRealUSD" with
                  | .error e => .error e
                  | .ok b =>
                    (match mvrvField fs "CapMVRVCur" with
                      | .error e => .error e
                      | .ok c => .ok ⟨d, a, b, c⟩))))
      | some _ => .error (.attrErr "replace"))
  | _ => .error (.typeErr "row is not a mapping")

/-- The whole `for row in _paginate_coinmetrics(...)` loop. -/
def mvrvRows : List JsonVal → Except PyErr (List MvrvRow)
  | [] => .ok []
  | r :: rs =>
    match mvrvRowParse r with
    | .error e => .error e
    | .ok row =>
      match mvrvRows rs with
      | .error e => .error e
      | .ok rest => .ok (row :: rest)

/-- `fetch_mvrv_timeseries` on the concatenated rows of all pages: parse
every row, fail on an empty result, sort ascending by date. -/
def fetch_mvrv_core (data : List JsonVal) : Except PyErr (List MvrvRow) :=
  match mvrvRows data with
  | .error e => .error e
  | .ok rows =>
    if rows.isEmpty then .error (.fetchErr "CoinMetrics returned no data for MVRV")
    else .ok (sortByDateKey (fun r => r.date) rows)

/-- The anchor substring `'name:\\"AHR999'` searched by
`fetch_ahr_timeseries` (the Python literal denotes `name:\"AHR999`). -/
def ahrAnchor : List Char := "name:\\\"AHR999".toList

/-- The `data:[` key searched after the anchor. -/
def ahrDataKey : List Char := "data:[".toList

/-- The `labels:[` key searched after the anchor. -/
def ahrLabelsKey : List Char := "labels:[".toList

/-- The two raw bracketed arrays extracted by `fetch_ahr_timeseries`
before the length check: anchor search, `data:[`/`labels:[` search from
the anchor, closing-bracket search, comma split, strip and
empty-filtering (labels additionally lose surrounding quotes). -/
def ahrRawArrays (html : List Char) :
    Except PyErr (List (List Char) × List (List Char)) :=
  match findSub ahrAnchor html with
  | none => .error (.fetchErr "Unable to locate AHR999 series in CaiZi page")
  | some anchorIdx =>
    match findSubFrom ahrDataKey html anchorIdx, findSubFrom ahrLabelsKey html anchorIdx with
    | some dataStart, some labelsStart =>
      (match findSubFrom [']'] html dataStart, findSubFrom [']'] html labelsStart with
        | some dataEnd, some labelsEnd =>
          let rawValues :=
            (splitOnChar ',' (sliceStr html (dataStart + ahrDataKey.length) dataEnd)).filterMap
              (fun v =>
                let v' := pyStrip v
                if v'.isEmpty then none else some v')
          let rawLabels :=
            (splitOnChar ',' (sliceStr html (labelsStart + ahrLabelsKey.length) labelsEnd)).filterMap
              (fun l =>
                let l' := pyStrip l
                if l'.isEmpty then none else some (stripBoth (fun c => c = '"') l'))
          .ok (rawValues, rawLabels)
        | _, _ => .error (.fetchErr "Malformed AHR999 script section"))
    | _, _ => .error (.fetchErr "Missing data or labels block for AHR999")

/-- One row of the AHR999 sentiment table. -/
structure AhrRow where
  date : Date
  ahr : PyFloat
  deriving DecidableEq, Repr

/-- `[float(v) for v in raw_values]`: a `ValueError` escapes uncaught. -/
def ahrValues : List (List Char) → Except PyErr (List PyFloat)
  | [] => .ok []
  | v :: vs =>
    match pyFloatParse v with
    | none => .error (.valueErr (String.mk v))
    | some x =>
      match ahrValues vs with
      | .error e => .error e
      | .ok rest => .ok (x :: rest)

/-- NaN test on a Python float. -/
def pyIsNan : PyFloat → Bool
  | .nan => true
  | _ => false

/-- `fetch_ahr_timeseries` on the fetched page text: extract the two raw
arrays, fail on a count mismatch, parse dates (`errors="coerce"`) and
values, `dropna()` (dropping rows with an unparseable date or a NaN
value), and sort ascending by date. -/
def fetch_ahr_core (html : List Char) : Except PyErr (List AhrRow) :=
  match ahrRawArrays html with
  | .error e => .error e
  | .ok raw =>
    if raw.1.length ≠ raw.2.length then
      .error (.fetchErr "Mismatched label/value counts in AHR data")
    else
      match ahrValues raw.1 with
      | .error e => .error e
      | .ok vals =>
        let rows := ((raw.2.map ymdParse).zip vals).filterMap
          (fun p =>
            match p.1 with
            | some d => if pyIsNan p.2 then none else some (⟨d, p.2⟩ : AhrRow)
            | none => none)
        .ok (sortByDateKey (fun r => r.date) rows)

/-- The leading-date regular expression
`^\|\s*(\d{2} [A-Za-z]{3} \d{4})\s*\|` of `_parse_farside_daily_flows`;
returns the captured `DD Mon YYYY` group. -/
def flowDateMatch (line : List Char) : Option (List Char) :=
  match line with
  | '|' :: rest =>
    (match rest.dropWhile isPySpace with
      | d1 :: d2 :: ' ' :: a1 :: a2 :: a3 :: ' ' :: y1 :: y2 :: y3 :: y4 :: r2 =>
        if d1.isDigit && d2.isDigit && a1.isAlpha && a2.isAlpha && a3.isAlpha &&
            y1.isDigit && y2.isDigit && y3.isDigit && y4.isDigit then
          match r2.dropWhile isPySpace with
          | '|' :: _ => some [d1, d2, ' ', a1, a2, a3, ' ', y1, y2, y3, y4]
          | _ => none
        else none
      | _ => none)
  | _ => none

/-- `line.strip().startswith('|')`. -/
def lineStripStartsPipe (line : List Char) : Bool :=
  match pyStrip line with
  | '|' :: _ => true
  | _ => false

/-- Cell extraction shared by the flow and treasury parsers:
`[p.strip() for p in line.strip('|').split('|')]`. -/
def tableParts (line : List Char) : List (List Char) :=
  (splitOnChar '|' (stripBoth (fun c => c = '|') line)).map pyStrip

/-- One row of an ETF daily-flow table (the flow value may be NaN and is
retained). -/
structure FlowRow where
  date : Date
  total_flow : PyFloat
  deriving DecidableEq, Repr

/-- The scanning loop of `_parse_farside_daily_flows`: keep lines whose
stripped text starts with a pipe and that match the date pattern; the last
cell goes through the Number Normalizer (whose `IndexError` escapes). -/
def flowRawRows : List (List Char) → Except PyErr (List (List Char × PyFloat))
  | [] => .ok []
  | line :: rest =>
    if !lineStripStartsPipe line then flowRawRows rest
    else
      match flowDateMatch line with
      | none => flowRawRows rest
      | some dateStr =>
        let parts := tableParts line
        if parts.isEmpty then flowRawRows rest
        else
          match to_number (String.mk (parts.getLastD [])) with
          | .error e => .error e
          | .ok v =>
            match flowRawRows rest with
            | .error e => .error e
            | .ok rs => .ok ((dateStr, v) :: rs)

/-- Error message for an empty flow table. -/
def flowEmptyMsg : String := "No daily ETF flow rows found in Farside table"

/-- `_parse_farside_daily_flows`: scan the lines, raise on an empty raw
row set (the check happens before date coercion), then coerce dates with
`errors="coerce"`, drop rows with unparseable dates, and sort ascending
by date. -/
def parse_farside_daily_flows (text : List Char) : Except PyErr (List FlowRow) :=
  match flowRawRows (splitlines text) with
  | .error e => .error e
  | .ok raw =>
    if raw.isEmpty then .error (.fetchErr flowEmptyMsg)
    else
      let rows := raw.filterMap
        (fun p => (dmyParse p.1).map (fun d => (⟨d, p.2⟩ : FlowRow)))
      .ok (sortByDateKey (fun r => r.date) rows)

/-- One row of a treasury table: the raw identity cells plus the decoded
holding amount. -/
structure TreasuryRow where
  cols : List (List Char)
  amount : PyFloat
  deriving DecidableEq, Repr

/-- Column decoding `df[col].apply(_to_number)` in row order; an
`IndexError` raised by the Number Normalizer escapes. -/
def treasuryDecode (idx : Nat) : List (List (List Char)) → Except PyErr (List TreasuryRow)
  | [] => .ok []
  | cols :: rest =>
    match to_number (String.mk (cols.getD idx [])) with
    | .error e => .error e
    | .ok v =>
      match treasuryDecode idx rest with
      | .error e => .error e
      | .ok rs => .ok (⟨cols, v⟩ :: rs)

/-- Row filtering of `fetch_btc_treasury_holdings`: raw lines starting
with a pipe, at least 9 cells, header cell not `Ticker` or empty; rows are
truncated to 9 cells. -/
def btcRawRows (lines : List (List Char)) : List (List (List Char)) :=
  lines.filterMap
    (fun line =>
      match line with
      | '|' :: _ =>
        let parts := tableParts line
        if parts.length < 9 || parts.headD [] = "Ticker".toList || parts.headD [] = [] then
          none
        else some (parts.take 9)
      | _ => none)

/-- `fetch_btc_treasury_holdings` on the fetched text: filter rows, raise
on an empty row set, decode the `BTC Holdings` column (index 8), sort
descending with NaN last, truncate to `top_n`. -/
def fetch_btc_treasury_core (text : List Char) (top_n : Nat) :
    Except PyErr (List TreasuryRow) :=
  let raw := btcRawRows (splitlines text)
  if raw.isEmpty then .error (.fetchErr "No BTC treasury rows parsed")
  else
    match treasuryDecode 8 raw with
    | .error e => .error e
    | .ok rows => .ok ((sortByFloatDesc (fun r => r.amount) rows).take top_n)

/-- Row filtering of `fetch_eth_treasury_holdings`: at least 8 cells,
header cell not `Company Name`; rows are truncated to 8 cells. -/
def ethRawRows (lines : List (List Char)) : List (List (List Char)) :=
  lines.filterMap
    (fun line =>
      match line with
      | '|' :: _ =>
        let parts := tableParts line
        if parts.length < 8 || parts.headD [] = "Company Name".toList then none
        else some (parts.take 8)
      | _ => none)

/-- `fetch_eth_treasury_holdings`: filter rows, raise on an empty row set,
decode the `ETH Held` column (index 3), sort descending, truncate. -/
def fetch_eth_treasury_core (text : List Char) (top_n : Nat) :
    Except PyErr (List TreasuryRow) :=
  let raw := ethRawRows (splitlines text)
  if raw.isEmpty then .error (.fetchErr "No Ethereum treasury data parsed")
  else
    match treasuryDecode 3 raw with
    | .error e => .error e
    | .ok rows => .ok ((sortByFloatDesc (fun r => r.amount) rows).take top_n)

/-- Row filtering of `fetch_sol_treasury_holdings`: at least 8 cells,
header cell not `Company`, a purely numeric leading rank cell is dropped,
at least 7 cells must remain; rows are truncated to 7 cells. -/
def solRawRows (lines : List (List Char)) : List (List (List Char)) :=
  lines.filterMap
    (fun line =>
      match line with
      | '|' :: _ =>
        let parts := tableParts line
        if parts.length < 8 || parts.headD [] = "Company".toList then none
        else
          let parts2 := if allDigits (parts.headD []) then parts.drop 1 else parts
          if parts2.length < 7 then none else some (parts2.take 7)
      | _ => none)

/-- `fetch_sol_treasury_holdings`: filter rows, raise on an empty row set,
decode the `SOL Held` column (index 3), sort descending, truncate. -/
def fetch_sol_treasury_core (text : List Char) (top_n : Nat) :
    Except PyErr (List TreasuryRow) :=
  let raw := solRawRows (splitlines text)
  if raw.isEmpty then .error (.fetchErr "No Solana treasury table detected")
  else
    match treasuryDecode 3 raw with
    | .error e => .error e
    | .ok rows => .ok ((sortByFloatDesc (fun r => r.amount) rows).take top_n)

/-! ## Theorems -/

theorem ratMul_eq_mul (a b : ℚ) : ratMul a b = a * b := by
  rw [ratMul, Rat.mkRat_eq_div]
  conv_rhs => rw [← Rat.num_div_den a, ← Rat.num_div_den b]
  rw [div_mul_div_comm]
  push_cast
  ring

theorem ratDiv_eq_div (a b : ℚ) : ratDiv a b = a / b := by
  rcases eq_or_ne b 0 with hb | hb
  · subst hb
    simp [ratDiv, Rat.divInt_eq_div]
  · have hbn : (b.num : ℚ) ≠ 0 := by
      exact_mod_cast Rat.num_ne_zero.mpr hb
    have had : (a.den : ℚ) ≠ 0 := by positivity
    have hbd : (b.den : ℚ) ≠ 0 := by positivity
    rw [ratDiv, Rat.divInt_eq_div]
    push_cast
    conv_rhs => rw [← Rat.num_div_den a, ← Rat.num_div_den b]
    field_simp

theorem blt_false_iff (x y : ℚ) : Rat.blt x y = false ↔ y ≤ x := Iff.rfl

theorem descLE_total (a b : PyFloat) : descLE a b = true ∨ descLE b a = true := by
  cases a <;> cases b <;>
    simp [descLE, Bool.not_eq_true', blt_false_iff] <;>
    exact le_total _ _

theorem descLE_trans (a b c : PyFloat) (h1 : descLE a b = true) (h2 : descLE b c = true) :
    descLE a c = true := by
  cases a <;> cases b <;> cases c <;>
    simp_all [descLE, Bool.not_eq_true', blt_false_iff] <;>
    exact le_trans h2 h1

theorem pairwise_insertionSort {α : Type} (r : α → α → Prop) [DecidableRel r]
    (tot : ∀ a b, r a b ∨ r b a) (htr : ∀ a b c, r a b → r b c → r a c) (l : List α) :
    (List.insertionSort r l).Pairwise r := by
  haveI : IsTotal α r := ⟨tot⟩
  haveI : IsTrans α r := ⟨fun a b c => htr a b c⟩
  exact List.sorted_insertionSort r l

theorem pairwise_sortByDateKey {α : Type} (key : α → Date) (l : List α) :
    (sortByDateKey key l).Pairwise (fun a b => (key a).key ≤ (key b).key) := by
  unfold sortByDateKey
  exact pairwise_insertionSort (fun a b => (key a).key ≤ (key b).key)
    (fun a b => Nat.le_total _ _) (fun a b c h1 h2 => le_trans h1 h2) l

theorem pairwise_sortByFloatDesc {α : Type} (key : α → PyFloat) (l : List α) :
    (sortByFloatDesc key l).Pairwise (fun a b => descLE (key a) (key b) = true) := by
  unfold sortByFloatDesc
  exact pairwise_insertionSort (fun a b => descLE (key a) (key b) = true)
    (fun a b => descLE_total (key a) (key b))
    (fun a b c h1 h2 => descLE_trans (key a) (key b) (key c) h1 h2) l

theorem pairwise_take {α : Type} {R : α → α → Prop} {l : List α} (n : Nat)
    (h : l.Pairwise R) : (l.take n).Pairwise R :=
  List.Pairwise.sublist (List.take_sublist n l) h

theorem length_take_le' {α : Type} (n : Nat) (l : List α) : (l.take n).length ≤ n := by
  rw [List.length_take]
  exact min_le_left _ _

theorem mvrvRows_ok_forall {rows : List JsonVal} {out : List MvrvRow}
    (h : mvrvRows rows = .ok out) : ∀ r ∈ rows, ∃ x, mvrvRowParse r = .ok x := by
  induction rows generalizing out with
  | nil => intro r hr; cases hr
  | cons a as ih =>
    unfold mvrvRows at h
    cases hp : mvrvRowParse a with
    | error e => simp [hp] at h
    | ok row =>
      cases hrest : mvrvRows as with
      | error e => simp [hp, hrest] at h
      | ok rest =>
        intro r hr
        rcases List.mem_cons.mp hr with rfl | hr2
        · exact ⟨row, hp⟩
        · exact ih hrest r hr2

theorem mvrvRowParse_ok_shape {r : JsonVal} {x : MvrvRow} (h : mvrvRowParse r = .ok x) :
    ∃ fs s d, r = .jobj fs ∧ jlookup "time" fs = some (.jstr s) ∧
      isoParse (replaceAll ['Z'] zOffset s.toList) = some d := by
  cases r with
  | jobj fs =>
    cases ht : jlookup "time" fs with
    | none => simp [mvrvRowParse, ht] at h
    | some v =>
      cases v with
      | jstr s =>
        cases hi : isoParse (replaceAll ['Z'] zOffset s.toList) with
        | none =>
          simp only [mvrvRowParse, ht] at h
          rw [hi] at h
          simp at h
        | some d => exact ⟨fs, s, d, rfl, ht, hi⟩
      | jnull => simp [mvrvRowParse, ht] at h
      | jbool b => simp [mvrvRowParse, ht] at h
      | jnum q => simp [mvrvRowParse, ht] at h
      | jarr xs => simp [mvrvRowParse, ht] at h
      | jobj fs2 => simp [mvrvRowParse, ht] at h
  | jnull => simp [mvrvRowParse] at h
  | jbool b => simp [mvrvRowParse] at h
  | jnum q => simp [mvrvRowParse] at h
  | jstr s => simp [mvrvRowParse] at h
  | jarr xs => simp [mvrvRowParse] at h

theorem fetch_mvrv_ok_rows {data : List JsonVal} {out : List MvrvRow}
    (h : fetch_mvrv_core data = .ok out) :
    ∃ rows, mvrvRows data = .ok rows ∧ out = sortByDateKey (fun r => r.date) rows := by
  unfold fetch_mvrv_core at h
  cases hm : mvrvRows data with
  | error e => simp [hm] at h
  | ok rows =>
    simp only [hm] at h
    by_cases hemp : rows.isEmpty
    · simp [hemp] at h
    · simp [hemp] at h
      exact ⟨rows, rfl, h.symm⟩

theorem fetch_ahr_ok_rows {html : List Char} {out : List AhrRow}
    (h : fetch_ahr_core html = .ok out) :
    ∃ rows, out = sortByDateKey (fun r : AhrRow => r.date) rows := by
  unfold fetch_ahr_core at h
  cases hraw : ahrRawArrays html with
  | error e => simp [hraw] at h
  | ok raw =>
    simp only [hraw] at h
    by_cases hlen : raw.1.length ≠ raw.2.length
    · simp [hlen] at h
    · simp only [hlen, if_false, ite_false, if_neg hlen] at h
      cases hvals : ahrValues raw.1 with
      | error e => simp [hvals] at h
      | ok vals =>
        simp [hvals] at h
        exact ⟨_, h.symm⟩

theorem parse_flows_ok_rows {text : List Char} {out : List FlowRow}
    (h : parse_farside_daily_flows text = .ok out) :
    ∃ rows, out = sortByDateKey (fun r : FlowRow => r.date) rows := by
  unfold parse_farside_daily_flows at h
  cases hraw : flowRawRows (splitlines text) with
  | error e => simp [hraw] at h
  | ok raw =>
    simp only [hraw] at h
    by_cases hemp : raw.isEmpty
    · simp [hemp] at h
    · simp [hemp] at h
      exact ⟨_, h.symm⟩

theorem fetch_btc_treasury_ok {text : List Char} {n : Nat} {out : List TreasuryRow}
    (h : fetch_btc_treasury_core text n = .ok out) :
    ∃ rows, out = (sortByFloatDesc (fun r : TreasuryRow => r.amount) rows).take n := by
  unfold fetch_btc_treasury_core at h
  by_cases hemp : (btcRawRows (splitlines text)).isEmpty
  · simp [hemp] at h
  · cases hdec : treasuryDecode 8 (btcRawRows (splitlines text)) with
    | error e => simp [hemp, hdec] at h
    | ok rows =>
      simp [hemp, hdec] at h
      exact ⟨rows, h.symm⟩

theorem fetch_eth_treasury_ok {text : List Char} {n : Nat} {out : List TreasuryRow}
    (h : fetch_eth_treasury_core text n = .ok out) :
    ∃ rows, out = (sortByFloatDesc (fun r : TreasuryRow => r.amount) rows).take n := by
  unfold fetch_eth_treasury_core at h
  by_cases hemp : (ethRawRows (splitlines text)).isEmpty
  · simp [hemp] at h
  · cases hdec : treasuryDecode 3 (ethRawRows (splitlines text)) with
    | error e => simp [hemp, hdec] at h
    | ok rows =>
      simp [hemp, hdec] at h
      exact ⟨rows, h.symm⟩

theorem fetch_sol_treasury_ok {text : List Char} {n : Nat} {out : List TreasuryRow}
    (h : fetch_sol_treasury_core text n = .ok out) :
    ∃ rows, out = (sortByFloatDesc (fun r : TreasuryRow => r.amount) rows).take n := by
  unfold fetch_sol_treasury_core at h
  by_cases hemp : (solRawRows (splitlines text)).isEmpty
  · simp [hemp] at h
  · cases hdec : treasuryDecode 3 (solRawRows (splitlines text)) with
    | error e => simp [hemp, hdec] at h
    | ok rows =>
      simp [hemp, hdec] at h
      exact ⟨rows, h.symm⟩

theorem flowRawRows_of_no_match {lines : List (List Char)}
    (h : ∀ l ∈ lines, flowDateMatch l = none) : flowRawRows lines = .ok [] := by
  induction lines with
  | nil => rfl
  | cons a as ih =>
    have ha := h a (List.mem_cons_self a as)
    have hrest : ∀ l ∈ as, flowDateMatch l = none :=
      fun l hl => h l (List.mem_cons_of_mem a hl)
    unfold flowRawRows
    cases hp : lineStripStartsPipe a <;> simp [hp, ha, ih hrest]

theorem replaceAllAux_trailing (repl : List Char) :
    ∀ s : List Char, 'Z' ∉ s →
      replaceAllAux ['Z'] repl (s.length + 1) (s ++ ['Z']) = s ++ repl := by
  intro s
  induction s with
  | nil => intro h; simp [replaceAllAux]
  | cons c cs ih =>
    intro h
    have hc : c ≠ 'Z' := fun hcc => h (hcc ▸ List.mem_cons_self c cs)
    have hcs : 'Z' ∉ cs := fun hm => h (List.mem_cons_of_mem c hm)
    have hbe : ('Z' == c) = false := beq_eq_false_iff_ne.mpr (Ne.symm hc)
    simp [replaceAllAux, List.isPrefixOf, hbe, ih hcs]

/-- C1: the spec says the Number Normalizer is total and never raises, but
`_to_number` evaluates `cleaned[-1]` after stripping, so an input that
reduces to the empty string after symbol stripping -- `"$"`, `"()"`,
`"+"` -- raises `IndexError` instead of returning the NaN sentinel. -/
theorem C1_to_number_raises_on_stripped_empty :
    to_number "$" = .error .indexErr ∧
      to_number "()" = .error .indexErr ∧
      to_number "+" = .error .indexErr :=
  ⟨rfl, rfl, rfl⟩

/-- C2 (amended): every Time Series Table produced by the MVRV, AHR999 and
ETF-flow parsers is sorted in non-decreasing date order; the sort does not
deduplicate, so duplicate dates can occur and the strict form of the claim
fails. -/
theorem C2_time_series_sorted :
    (∀ rows out, fetch_mvrv_core rows = .ok out →
        out.Pairwise (fun a b => a.date.key ≤ b.date.key)) ∧
      (∀ html out, fetch_ahr_core html = .ok out →
          out.Pairwise (fun a b => a.date.key ≤ b.date.key)) ∧
      (∀ text out, parse_farside_daily_flows text = .ok out →
          out.Pairwise (fun a b => a.date.key ≤ b.date.key)) := by
  refine ⟨?_, ?_, ?_⟩
  · intro rows out hok
    obtain ⟨rows2, -, rfl⟩ := fetch_mvrv_ok_rows hok
    exact pairwise_sortByDateKey _ _
  · intro html out hok
    obtain ⟨rows2, rfl⟩ := fetch_ahr_ok_rows hok
    exact pairwise_sortByDateKey _ _
  · intro text out hok
    obtain ⟨rows2, rfl⟩ := parse_flows_ok_rows hok
    exact pairwise_sortByDateKey _ _

/-- C2 counterexample: an ETF-flow text repeating one date is accepted and
yields a table with duplicate dates, refuting strictly-ascending order
with no duplicates. -/
theorem C2_counterexample_duplicate_dates :
    parse_farside_daily_flows "| 02 Jan 2024 | 5 |\n| 02 Jan 2024 | 5 |".toList
        = .ok [⟨⟨2024, 1, 2⟩, .val (mkRat 5 1)⟩, ⟨⟨2024, 1, 2⟩, .val (mkRat 5 1)⟩] ∧
      ¬ ([⟨⟨2024, 1, 2⟩, .val (mkRat 5 1)⟩, ⟨⟨2024, 1, 2⟩, .val (mkRat 5 1)⟩] :
          List FlowRow).Pairwise (fun a b => a.date.key < b.date.key) :=
  ⟨rfl, by decide⟩

/-- C2 witness: the sortedness theorem applied to concrete accepted
payloads of each of the three parsers. -/
theorem C2_time_series_sorted_witness :
    ([⟨⟨2024, 1, 2⟩, .val (mkRat 3 1), .val (mkRat 2 1), .val (mkRat 3 2)⟩] :
        List MvrvRow).Pairwise (fun a b => a.date.key ≤ b.date.key) ∧
      ([⟨⟨2024, 1, 1⟩, .val (mkRat 2 1)⟩, ⟨⟨2024, 1, 2⟩, .val (mkRat 3 2)⟩] :
          List AhrRow).Pairwise (fun a b => a.date.key ≤ b.date.key) ∧
      ([⟨⟨2024, 1, 2⟩, .val (mkRat 5 1)⟩] : List FlowRow).Pairwise
          (fun a b => a.date.key ≤ b.date.key) :=
  ⟨C2_time_series_sorted.1
      [.jobj [("time", .jstr "2024-01-02T00:00:00Z"), ("CapMrktCurUSD", .jnum (mkRat 3 1)),
        ("CapRealUSD", .jnum (mkRat 2 1)), ("CapMVRVCur", .jnum (mkRat 15 10))]] _ rfl,
    C2_time_series_sorted.2.1
      "name:\\\"AHR999 data:[1.5,2] labels:[\"2024-01-02\",\"2024-01-01\"]".toList _ rfl,
    C2_time_series_sorted.2.2 "| 02 Jan 2024 | 5 |".toList _ rfl⟩

/-- C3 (amended): every Treasury Table has length at most the requested
top-N and its holding column is non-increasing among numeric rows with NaN
amounts placed after all numeric rows; the order is not strict, because
equal holdings tie. -/
theorem C3_treasury_tables_ranked :
    (∀ text n out, fetch_btc_treasury_core text n = .ok out →
        out.length ≤ n ∧ out.Pairwise (fun a b => descLE a.amount b.amount = true)) ∧
      (∀ text n out, fetch_eth_treasury_core text n = .ok out →
          out.length ≤ n ∧ out.Pairwise (fun a b => descLE a.amount b.amount = true)) ∧
      (∀ text n out, fetch_sol_treasury_core text n = .ok out →
          out.length ≤ n ∧ out.Pairwise (fun a b => descLE a.amount b.amount = true)) := by
  refine ⟨?_, ?_, ?_⟩ <;> intro text n out hok
  · obtain ⟨rows, rfl⟩ := fetch_btc_treasury_ok hok
    exact ⟨length_take_le' n _, pairwise_take n (pairwise_sortByFloatDesc _ _)⟩
  · obtain ⟨rows, rfl⟩ := fetch_eth_treasury_ok hok
    exact ⟨length_take_le' n _, pairwise_take n (pairwise_sortByFloatDesc _ _)⟩
  · obtain ⟨rows, rfl⟩ := fetch_sol_treasury_ok hok
    exact ⟨length_take_le' n _, pairwise_take n (pairwise_sortByFloatDesc _ _)⟩

/-- C3 counterexample: two treasury rows with equal holdings are both
returned, tied, refuting a strictly descending holding column. -/
theorem C3_counterexample_tied_holdings :
    (fetch_btc_treasury_core "|A|B|C|D|E|F|G|H|5|\n|A|B|C|D|E|F|G|H|5|".toList 15).map
        (fun rows => rows.map (fun r => r.amount))
        = .ok [.val (mkRat 5 1), .val (mkRat 5 1)] ∧
      ¬ ([.val (mkRat 5 1), .val (mkRat 5 1)] : List PyFloat).Pairwise
          (fun a b => descLT a b = true) :=
  ⟨rfl, by decide⟩

/-- C3 witness: the ranking theorem applied to concrete accepted texts of
the three treasury fetchers. -/
theorem C3_treasury_tables_ranked_witness :
    (([⟨[['I'], ['J'], ['K'], ['L'], ['M'], ['N'], ['O'], ['P'], ['7']], .val (mkRat 7 1)⟩,
        ⟨[['A'], ['B'], ['C'], ['D'], ['E'], ['F'], ['G'], ['H'], ['5']], .val (mkRat 5 1)⟩] :
          List TreasuryRow).length ≤ 15 ∧
        ([⟨[['I'], ['J'], ['K'], ['L'], ['M'], ['N'], ['O'], ['P'], ['7']], .val (mkRat 7 1)⟩,
          ⟨[['A'], ['B'], ['C'], ['D'], ['E'], ['F'], ['G'], ['H'], ['5']],
            .val (mkRat 5 1)⟩] :
            List TreasuryRow).Pairwise (fun a b => descLE a.amount b.amount = true)) ∧
      (([⟨[['A'], ['B'], ['C'], ['5'], ['D'], ['E'], ['F'], ['G']], .val (mkRat 5 1)⟩] :
          List TreasuryRow).length ≤ 15 ∧
        ([⟨[['A'], ['B'], ['C'], ['5'], ['D'], ['E'], ['F'], ['G']], .val (mkRat 5 1)⟩] :
            List TreasuryRow).Pairwise (fun a b => descLE a.amount b.amount = true)) ∧
      (([⟨[['A'], ['B'], ['C'], ['5'], ['D'], ['E'], ['F']], .val (mkRat 5 1)⟩] :
          List TreasuryRow).length ≤ 15 ∧
        ([⟨[['A'], ['B'], ['C'], ['5'], ['D'], ['E'], ['F']], .val (mkRat 5 1)⟩] :
            List TreasuryRow).Pairwise (fun a b => descLE a.amount b.amount = true)) :=
  ⟨C3_treasury_tables_ranked.1 "|I|J|K|L|M|N|O|P|7|\n|A|B|C|D|E|F|G|H|5|".toList 15 _ rfl,
    C3_treasury_tables_ranked.2.1 "|A|B|C|5|D|E|F|G|".toList 15 _ rfl,
    C3_treasury_tables_ranked.2.2 "|A|B|C|5|D|E|F|G|".toList 15 _ rfl⟩

/-- C4 (amended): the ETF-flow parser raises the Fetch Error when no line
matches the leading date pattern, and the M2 assembler raises the Fetch
Error when no usable record remains; but the flow emptiness check runs
before date coercion, so a text whose matching lines all carry unparseable
dates yields an empty table instead. -/
theorem C4_empty_result_policy :
    (∀ text, (∀ l ∈ splitlines text, flowDateMatch l = none) →
        parse_farside_daily_flows text = .error (.fetchErr flowEmptyMsg)) ∧
      (∀ payload entries, payload.get? 1 = some (.jarr entries) →
          m2Rows entries = .ok [] →
          fetch_global_m2_core payload
            = .error (.fetchErr "World Bank M2 dataset returned no usable data")) := by
  constructor
  · intro text hnone
    simp [parse_farside_daily_flows, flowRawRows_of_no_match hnone]
  · intro payload entries hget hrows
    rw [List.get?_eq_getElem?] at hget
    simp [fetch_global_m2_core, hget, hrows]

/-- C4 counterexample: `| 99 Jan 2024 | 5 |` matches the leading date
pattern but fails date parsing, and the parser returns an empty table
instead of raising. -/
theorem C4_counterexample_empty_table :
    flowDateMatch "| 99 Jan 2024 | 5 |".toList = some "99 Jan 2024".toList ∧
      dmyParse "99 Jan 2024".toList = none ∧
      parse_farside_daily_flows "| 99 Jan 2024 | 5 |".toList = .ok [] :=
  ⟨rfl, rfl, rfl⟩

/-- C4 witness: the empty-result policy applied to a text with no matching
line and to an M2 payload with no usable record. -/
theorem C4_empty_result_policy_witness :
    parse_farside_daily_flows "hello\nworld".toList = .error (.fetchErr flowEmptyMsg) ∧
      fetch_global_m2_core [.jnull, .jarr []]
        = .error (.fetchErr "World Bank M2 dataset returned no usable data") :=
  ⟨C4_empty_result_policy.1 "hello\nworld".toList (by decide),
    C4_empty_result_policy.2 [.jnull, .jarr []] [] rfl rfl⟩

/-- C5 (amended): failures from explicit checks (missing anchor, empty
result sets) and from the guarded timestamp path surface as
`DataFetchError`, but a missing or non-numeric CoinMetrics metric field
escapes as `KeyError`/`ValueError`, a non-integer M2 year string escapes
as `ValueError`, and an M2 payload without a second element escapes as
`IndexError`. -/
theorem C5_error_kind_surface :
    fetch_global_m2_core [.jnull] = .error .indexErr ∧
      fetch_global_m2_core
          [.jnull, .jarr [.jobj [("value", .jnum (mkRat 5 1)), ("date", .jstr "n/a")]]]
        = .error (.valueErr "n/a") ∧
      mvrvRowParse
          (.jobj [("time", .jstr "2024-01-03T00:00:00Z"), ("CapMrktCurUSD", .jstr "abc")])
        = .error (.valueErr "abc") ∧
      fetch_global_m2_core [.jnull, .jarr []]
        = .error (.fetchErr "World Bank M2 dataset returned no usable data") ∧
      fetch_ahr_core "no anchor here".toList
        = .error (.fetchErr "Unable to locate AHR999 series in CaiZi page") :=
  ⟨rfl, rfl, rfl, rfl, rfl⟩

/-- C5 counterexample: a CoinMetrics row with a valid timestamp but no
`CapMrktCurUSD` field makes the fetch raise a bare `KeyError`, not the
single Fetch Error kind. -/
theorem C5_counterexample_keyerror_escapes :
    fetch_mvrv_core [.jobj [("time", .jstr "2024-01-02T00:00:00Z")]]
        = .error (.keyErr "CapMrktCurUSD") ∧
      (PyErr.keyErr "CapMrktCurUSD").isFetch = false :=
  ⟨rfl, rfl⟩

/-- C6: the market-cap snapshot computes
`gold_market_cap = gold_price * (205000 * 32150.7466)` and
`gold_vs_btc_upside = gold_market_cap / btc_market_cap`; at the spec's
inputs (BTC price 60000, BTC cap 1.2e12, gold price 2000) the gold market
cap is exactly 13,181,806,106,000 (about 1.3182e13) and the upside is
about 10.98. -/
theorem C6_market_cap_snapshot :
    (∀ p c : PyFloat, ∀ g : ℚ, (fetch_market_caps_core p c (.val g)).gold_market_cap
        = .val ((205000 * 32150.7466) * g)) ∧
      (fetch_market_caps_core (.val (mkRat 60000 1)) (.val (mkRat 1200000000000 1))
          (.val (mkRat 2000 1))).gold_market_cap = .val (mkRat 13181806106000 1) ∧
      (fetch_market_caps_core (.val (mkRat 60000 1)) (.val (mkRat 1200000000000 1))
          (.val (mkRat 2000 1))).gold_vs_btc_upside
        = .val (mkRat 13181806106000 1200000000000) ∧
      (mkRat 13181806106000 1200000000000 : ℚ) = 13181806106000 / 1200000000000 ∧
      |(13181806106000 / 1200000000000 : ℚ) - 10.98| < 1 / 100 ∧
      |(13181806106000 : ℚ) - 1.3182e13| < 5 * 10 ^ 8 := by
  refine ⟨?_, rfl, rfl, ?_, ?_, ?_⟩
  · intro p c g
    show PyFloat.val (ratMul (ratMul TOTAL_ABOVE_GROUND_GOLD_TONNES TONNES_TO_TROY_OZ) g)
      = .val ((205000 * 32150.7466) * g)
    rw [ratMul_eq_mul, ratMul_eq_mul]
    have h1 : (TOTAL_ABOVE_GROUND_GOLD_TONNES : ℚ) = 205000 := by
      norm_num [TOTAL_ABOVE_GROUND_GOLD_TONNES, Rat.mkRat_eq_div]
    have h2 : (TONNES_TO_TROY_OZ : ℚ) = 32150.7466 := by
      norm_num [TONNES_TO_TROY_OZ, Rat.mkRat_eq_div]
    rw [h1, h2]
  · norm_num [Rat.mkRat_eq_div]
  · rw [abs_sub_lt_iff]
    constructor <;> norm_num
  · rw [abs_sub_lt_iff]
    constructor <;> norm_num

/-- C7: the Number Normalizer maps the five spec examples to the stated
values: `"(1,234.5)"` to -1234.5, `"1.2b"` to 1.2e9, `"-"` to the NaN
sentinel, `"45.3%"` to 45.3, and `"1,000 BTC"` to 1000.0. -/
theorem C7_to_number_examples :
    to_number "(1,234.5)" = .ok (.val (mkRat (-12345) 10)) ∧
      to_number "1.2b" = .ok (.val (mkRat 1200000000 1)) ∧
      to_number "-" = .ok .nan ∧
      to_number "45.3%" = .ok (.val (mkRat 453 10)) ∧
      to_number "1,000 BTC" = .ok (.val (mkRat 1000 1)) ∧
      (mkRat (-12345) 10 : ℚ) = -1234.5 ∧ (mkRat 1200000000 1 : ℚ) = 1.2e9 ∧
      (mkRat 453 10 : ℚ) = 45.3 ∧ (mkRat 1000 1 : ℚ) = 1000 := by
  refine ⟨rfl, rfl, rfl, rfl, rfl, ?_, ?_, ?_, ?_⟩ <;> norm_num [Rat.mkRat_eq_div]

/-- C8: when the extracted AHR999 data and labels arrays differ in length,
the parser raises the count-mismatch Fetch Error instead of truncating to
the shorter array. -/
theorem C8_ahr_count_mismatch (html : List Char) (vs ls : List (List Char))
    (hraw : ahrRawArrays html = .ok (vs, ls)) (hne : vs.length ≠ ls.length) :
    fetch_ahr_core html
      = .error (.fetchErr "Mismatched label/value counts in AHR data") := by
  unfold fetch_ahr_core
  rw [hraw]
  simp [hne]

/-- C8 witness: a document whose data array has three entries while the
labels array has two. -/
theorem C8_ahr_count_mismatch_witness :
    fetch_ahr_core
        "name:\\\"AHR999 data:[1,2,3] labels:[\"2024-01-01\",\"2024-01-02\"]".toList
      = .error (.fetchErr "Mismatched label/value counts in AHR data") :=
  C8_ahr_count_mismatch _ [['1'], ['2'], ['3']]
    ["2024-01-01".toList, "2024-01-02".toList] rfl (by decide)

/-- C9: in the MVRV parser a row whose `time` field is missing, or is a
string that fails ISO-8601 parsing after the `Z` to `+00:00` replacement,
makes the row parse raise the timestamp Fetch Error; rows are never
skipped (an accepted fetch has every row's timestamp parsed); and a
trailing `Z` is normalized to the explicit `+00:00` offset. -/
theorem C9_mvrv_timestamp_policy :
    (∀ fs, jlookup "time" fs = none →
        mvrvRowParse (.jobj fs) = .error (.fetchErr mvrvTimestampMsg)) ∧
      (∀ fs s, jlookup "time" fs = some (.jstr s) →
          isoParse (replaceAll ['Z'] zOffset s.toList) = none →
          mvrvRowParse (.jobj fs) = .error (.fetchErr mvrvTimestampMsg)) ∧
      (∀ rows out, fetch_mvrv_core rows = .ok out →
          ∀ r ∈ rows, ∃ fs s d, r = .jobj fs ∧ jlookup "time" fs = some (.jstr s) ∧
            isoParse (replaceAll ['Z'] zOffset s.toList) = some d) ∧
      (∀ s : List Char, 'Z' ∉ s →
          replaceAll ['Z'] zOffset (s ++ ['Z']) = s ++ zOffset) := by
  refine ⟨?_, ?_, ?_, ?_⟩
  · intro fs hnone
    simp [mvrvRowParse, hnone]
  · intro fs s hsome hiso
    simp only [mvrvRowParse, hsome]
    rw [hiso]
  · intro rows out hok r hr
    obtain ⟨rows2, hrows, -⟩ := fetch_mvrv_ok_rows hok
    obtain ⟨x, hx⟩ := mvrvRows_ok_forall hrows r hr
    exact mvrvRowParse_ok_shape hx
  · intro s hs
    have h := replaceAllAux_trailing zOffset s hs
    simpa [replaceAll] using h

/-- C9 witness: the four parts applied to a row with no timestamp, a row
with a malformed timestamp, an accepted one-row payload, and a concrete
trailing-Z string. -/
theorem C9_mvrv_timestamp_policy_witness :
    mvrvRowParse (.jobj []) = .error (.fetchErr mvrvTimestampMsg) ∧
      mvrvRowParse (.jobj [("time", .jstr "junk")])
        = .error (.fetchErr mvrvTimestampMsg) ∧
      (∃ fs s d,
        (JsonVal.jobj [("time", JsonVal.jstr "2024-01-02T00:00:00Z"),
            ("CapMrktCurUSD", JsonVal.jnum (mkRat 3 1)),
            ("CapRealUSD", JsonVal.jnum (mkRat 2 1)),
            ("CapMVRVCur", JsonVal.jnum (mkRat 15 10))]) = .jobj fs ∧
          jlookup "time" fs = some (.jstr s) ∧
          isoParse (replaceAll ['Z'] zOffset s.toList) = some d) ∧
      replaceAll ['Z'] zOffset ("2024-01-02T00:00:00".toList ++ ['Z'])
        = "2024-01-02T00:00:00".toList ++ zOffset :=
  ⟨C9_mvrv_timestamp_policy.1 [] rfl,
    C9_mvrv_timestamp_policy.2.1 [("time", .jstr "junk")] "junk" rfl rfl,
    C9_mvrv_timestamp_policy.2.2.1
      [.jobj [("time", .jstr "2024-01-02T00:00:00Z"), ("CapMrktCurUSD", .jnum (mkRat 3 1)),
        ("CapRealUSD", .jnum (mkRat 2 1)), ("CapMVRVCur", .jnum (mkRat 15 10))]]
      [⟨⟨2024, 1, 2⟩, .val (mkRat 3 1), .val (mkRat 2 1), .val (mkRat 3 2)⟩] rfl _
      (List.mem_singleton.mpr rfl),
    C9_mvrv_timestamp_policy.2.2.2 "2024-01-02T00:00:00".toList (by decide)⟩

/-- C10: the parenthesized-negative marker applies only when the input
both starts with `(` and ends with `)`; a one-sided parenthesis is merely
stripped and the value parses to positive 5.0, while the two-sided form
parses to -5.0. -/
theorem C10_unmatched_paren_positive :
    to_number "(5" = .ok (.val (mkRat 5 1)) ∧
      to_number "5)" = .ok (.val (mkRat 5 1)) ∧
      to_number "(5)" = .ok (.val (mkRat (-5) 1)) ∧
      (mkRat 5 1 : ℚ) = 5 := by
  refine ⟨rfl, rfl, rfl, ?_⟩
  norm_num [Rat.mkRat_eq_div]
